import Mathlib

/-!
Verification of the request-metrics middleware of the Observer service
(src/main.py) against its specification.

The embedding models the middleware `monitor_requests` (src/main.py lines
35-75) by explicit state passing: the process-wide Prometheus registry and
the module-level global `active_connections` form the state, the downstream
handler `call_next` is a state-transforming continuation that either returns
a response or raises, and wall-clock readings are passed in as rational
timestamps `t0` (entry, line 37) and `t1` (the reading taken at the
`time.time()` call of the observe line).
-/

set_option maxHeartbeats 1000000

namespace Observer

/-- An inbound request as the middleware sees it.  The source reads
`request.method` and `request.url.path`; the field `route_template` records
the normalized path template of the matched route, which the source
middleware never consults (it is carried only to state the label-cardinality
claim). -/
structure Request where
  method : String
  url_path : String
  route_template : String
  deriving DecidableEq

/-- A response produced by the downstream handler.  The middleware reads only
`response.status_code`; `body` is the payload, of handler-specific type. -/
structure Response (β : Type) where
  status_code : Nat
  body : β
  deriving DecidableEq

/-- Result of awaiting `call_next`: the handler returns a response or raises
an exception of type `ε`. -/
inductive Outcome (ε β : Type) where
  | ok (response : Response β)
  | err (e : ε)
  deriving DecidableEq

/-- The Prometheus registry state touched by src/main.py lines 24-29:
`http_requests_total` keyed by (method, endpoint, status),
`http_request_duration_seconds` (list of observations, newest first),
`active_connections` gauge, and `http_errors_total` keyed by (endpoint). -/
structure Registry where
  request_count : String → String → Nat → Nat
  error_rate : String → Nat
  latency_obs : List ℚ
  active_gauge : Int

/-- REQUEST_COUNT.labels(method=m, endpoint=p, status=s).inc() -/
def Registry.requestCountInc (r : Registry) (m p : String) (s : Nat) : Registry :=
  { r with request_count := fun m2 p2 s2 =>
      if m2 = m ∧ p2 = p ∧ s2 = s then r.request_count m2 p2 s2 + 1
      else r.request_count m2 p2 s2 }

/-- ERROR_RATE.labels(endpoint=p).inc() -/
def Registry.errorRateInc (r : Registry) (p : String) : Registry :=
  { r with error_rate := fun p2 =>
      if p2 = p then r.error_rate p2 + 1 else r.error_rate p2 }

/-- REQUEST_LATENCY.observe(v) -/
def Registry.observe (r : Registry) (v : ℚ) : Registry :=
  { r with latency_obs := v :: r.latency_obs }

/-- ACTIVE_CONNECTIONS.set(v) -/
def Registry.gaugeSet (r : Registry) (v : Int) : Registry :=
  { r with active_gauge := v }

/-- Process state: the registry plus the module-level global
`active_connections` (src/main.py line 32). -/
structure AppState where
  registry : Registry
  active_connections : Int

/-- Middleware entry (src/main.py lines 39-42): increment the module-level
global, then write its new value into the gauge with `set`. -/
def entryState (st : AppState) : AppState :=
  { st with
    active_connections := st.active_connections + 1
    registry := st.registry.gaugeSet (st.active_connections + 1) }

/-- The middleware `monitor_requests` (src/main.py lines 35-75).  On normal
completion: count the request under (method, url path, status), count an
error when status is at least 400, observe the latency, and return the
response; when the handler raises: count an error, count the request under
status 500, observe the latency, and re-raise.  The `finally` block
decrements the global and writes it into the gauge on both paths. -/
def monitor_requests {ε β : Type} (request : Request) (t0 t1 : ℚ)
    (call_next : AppState → Outcome ε β × AppState)
    (st : AppState) : Outcome ε β × AppState :=
  match call_next (entryState st) with
  | (Outcome.ok response, st2) =>
      let r1 := st2.registry.requestCountInc request.method request.url_path
        response.status_code
      let r2 := if 400 ≤ response.status_code then r1.errorRateInc request.url_path
        else r1
      let r3 := r2.observe (t1 - t0)
      let a2 := st2.active_connections - 1
      (Outcome.ok response, { st2 with active_connections := a2, registry := r3.gaugeSet a2 })
  | (Outcome.err e, st2) =>
      let r1 := st2.registry.errorRateInc request.url_path
      let r2 := r1.requestCountInc request.method request.url_path 500
      let r3 := r2.observe (t1 - t0)
      let a2 := st2.active_connections - 1
      (Outcome.err e, { st2 with active_connections := a2, registry := r3.gaugeSet a2 })

/-- The status a request is recorded under: the response status on normal
completion, 500 when the handler raised. -/
def finalStatus {ε β : Type} : Outcome ε β → Nat
  | Outcome.ok response => response.status_code
  | Outcome.err _ => 500

/-- All-zero registry, as registered at process start (src/main.py 24-29). -/
def Registry.init : Registry :=
  { request_count := fun _ _ _ => 0
    error_rate := fun _ => 0
    latency_obs := []
    active_gauge := 0 }

/-- Process state at start: fresh registry, global counter at 0 (line 32). -/
def initState : AppState :=
  { registry := Registry.init, active_connections := 0 }

/-- A sample request used by the concrete witnesses. -/
def sampleReq : Request :=
  { method := "GET", url_path := "/health", route_template := "/health" }

/-- A handler that returns status 200 and leaves the state unchanged. -/
def cnOk : AppState → Outcome Unit Unit × AppState :=
  fun s => (Outcome.ok { status_code := 200, body := () }, s)

/-- A handler that raises and leaves the state unchanged. -/
def cnErr : AppState → Outcome String Unit × AppState :=
  fun s => (Outcome.err "boom", s)

/-- A request whose raw URL path differs from the normalized template of the
matched route (for the label-cardinality claim). -/
def rawPathReq : Request :=
  { method := "GET", url_path := "/simulate/extra", route_template := "/simulate" }

/-- Primitive effects on shared state available to the middleware for its
in-flight bookkeeping: a read-modify-write of the module-level global
`active_connections` by `delta`, a `gauge.set` of the current value of that
global, and the atomic gauge increment and decrement offered by the metrics
registry (which src/main.py never calls). -/
inductive Effect where
  | globalAdd (delta : Int)
  | gaugeSetFromGlobal
  | gaugeInc
  | gaugeDec
  deriving DecidableEq

/-- The in-flight effect sequence at middleware entry, src/main.py lines
39-42: `active_connections += 1` then
`ACTIVE_CONNECTIONS.set(active_connections)`. -/
def entryEffects : List Effect :=
  [Effect.globalAdd 1, Effect.gaugeSetFromGlobal]

/-- The in-flight effect sequence of the `finally` block, src/main.py lines
72-75: `active_connections -= 1` then
`ACTIVE_CONNECTIONS.set(active_connections)`. -/
def exitEffects : List Effect :=
  [Effect.globalAdd (-1), Effect.gaugeSetFromGlobal]

/-- Whether an effect is one of the atomic increment or decrement operations
of the registry. -/
def Effect.isAtomicRegistryOp : Effect → Bool
  | Effect.gaugeInc => true
  | Effect.gaugeDec => true
  | _ => false

/-- State for the lost-update demonstration: a shared counter and one
private register per task, as in a read-then-write increment of a shared
variable by two concurrent tasks. -/
structure ToyState where
  glob : Int
  reg0 : Int
  reg1 : Int
  deriving DecidableEq

/-- One step of one of two tasks, each of which increments the shared
counter by first reading it into its private register and then writing back
register plus one. -/
inductive RmwStep where
  | read0
  | write0
  | read1
  | write1
  deriving DecidableEq

/-- Semantics of a single read or write step. -/
def toyStep : RmwStep → ToyState → ToyState
  | RmwStep.read0, s => { s with reg0 := s.glob }
  | RmwStep.write0, s => { s with glob := s.reg0 + 1 }
  | RmwStep.read1, s => { s with reg1 := s.glob }
  | RmwStep.write1, s => { s with glob := s.reg1 + 1 }

/-- Run a schedule (an interleaving of the steps of the two tasks). -/
def toyRun (l : List RmwStep) (s : ToyState) : ToyState :=
  l.foldl (fun s a => toyStep a s) s

/-- Modelled from the spec: prometheus_client CONTENT_TYPE_LATEST, a
constant of the external metrics library (not part of src/), the content
type of the text exposition format. -/
def CONTENT_TYPE_LATEST : String := "text/plain; version=0.0.4; charset=utf-8"

/-- Modelled from the spec: prometheus_client generate_latest, the external
serialization entry point (not part of src/) that renders the current
registry state in the text exposition format, each registered metric family
under its metric name.  Per-cell rendering of the labelled counters is
elided: the claims depend only on the family names and the scalar gauge and
histogram state. -/
def generate_latest (r : Registry) : String :=
  "# TYPE " ++ "http_requests_total" ++ " counter\n" ++
  "# TYPE " ++ "http_errors_total" ++ " counter\n" ++
  "# TYPE " ++ "http_request_duration_seconds" ++ " histogram\n" ++
  "http_request_duration_seconds_count " ++ toString r.latency_obs.length ++ "\n" ++
  "# TYPE " ++ "active_connections" ++ " gauge\n" ++
  "active_connections " ++ toString r.active_gauge ++ "\n"

/-- Body and content type of the response of the `/metrics` route handler. -/
structure MetricsPage where
  body : String
  media_type : String

/-- The `/metrics` route handler (src/main.py lines 103-109): returns the
serialized registry snapshot with media type CONTENT_TYPE_LATEST. -/
def metrics (st : AppState) : MetricsPage :=
  { body := generate_latest st.registry, media_type := CONTENT_TYPE_LATEST }

/-- String `s` contains `sub` as a contiguous substring. -/
def strContains (s sub : String) : Prop :=
  ∃ pre post : String, s = pre ++ sub ++ post

/-- Response body of the `/health` route handler. -/
structure HealthBody where
  status : String
  timestamp : ℚ
  active_connections : Int
  deriving DecidableEq

/-- The `/health` route handler (src/main.py lines 93-100): reports status
healthy, the current time, and the current value of the module-level global
`active_connections`. -/
def health_check (t : ℚ) (st : AppState) : HealthBody :=
  { status := "healthy", timestamp := t
    active_connections := st.active_connections }

/-- The `/health` handler as the continuation the middleware wraps: the
framework turns the returned dict into a 200 response; the handler does not
mutate the state. -/
def health_call_next (t : ℚ) : AppState → Outcome Unit HealthBody × AppState :=
  fun s => (Outcome.ok { status_code := 200, body := health_check t s }, s)

/-- The response GET /health produces when the module-level global reads `n`
at handler time. -/
def healthResp (t : ℚ) (n : Int) : Outcome Unit HealthBody :=
  Outcome.ok
    { status_code := 200
      body := { status := "healthy", timestamp := t, active_connections := n } }

/-- The outcome produced by `cnOk`, named so the concrete witnesses can state
it with its types fixed. -/
def okResp200 : Outcome Unit Unit :=
  Outcome.ok { status_code := 200, body := () }

/-- Claim C1: for every request entering the middleware, whether the handler
returns or raises, the in-flight bookkeeping nets to zero: provided the
handler preserves the in-flight counter, the module-level counter returns to
its pre-request value and the gauge is left at its pre-request value
whenever it agreed with the counter on entry. -/
theorem inflight_gauge_net_zero {ε β : Type} (req : Request) (t0 t1 : ℚ)
    (call_next : AppState → Outcome ε β × AppState)
    (st st2 : AppState) (out : Outcome ε β)
    (h : call_next (entryState st) = (out, st2))
    (hpres : st2.active_connections = st.active_connections + 1)
    (hg : st.registry.active_gauge = st.active_connections) :
    ((monitor_requests req t0 t1 call_next st).2).active_connections
        = st.active_connections ∧
    ((monitor_requests req t0 t1 call_next st).2).registry.active_gauge
        = st.registry.active_gauge := by
  unfold monitor_requests
  rw [h]
  cases out <;>
    simp [Registry.gaugeSet, Registry.observe, Registry.errorRateInc,
      Registry.requestCountInc, hpres, hg]

/-- Witness for C1 at a concrete request, handler and state. -/
theorem inflight_gauge_net_zero_witness :
    (cnOk (entryState initState)
        = (Outcome.ok { status_code := 200, body := () }, entryState initState)) ∧
    ((entryState initState).active_connections = initState.active_connections + 1) ∧
    (initState.registry.active_gauge = initState.active_connections) ∧
    (((monitor_requests sampleReq 0 1 cnOk initState).2).active_connections
        = initState.active_connections ∧
     ((monitor_requests sampleReq 0 1 cnOk initState).2).registry.active_gauge
        = initState.registry.active_gauge) :=
  ⟨rfl, rfl, rfl,
    inflight_gauge_net_zero sampleReq 0 1 cnOk initState (entryState initState)
      (Outcome.ok { status_code := 200, body := () }) rfl rfl rfl⟩

/-- Claim C2: on normal completion with status S, the middleware returns the
response of the handler unchanged, increments the request counter cell
(method, path label, S) by exactly one, and appends exactly one latency
observation of value t1 - t0 (exit reading minus entry reading). -/
theorem normal_completion_records {ε β : Type} (req : Request) (t0 t1 : ℚ)
    (call_next : AppState → Outcome ε β × AppState)
    (st st2 : AppState) (resp : Response β)
    (h : call_next (entryState st) = (Outcome.ok resp, st2)) :
    (monitor_requests req t0 t1 call_next st).1 = Outcome.ok resp ∧
    ((monitor_requests req t0 t1 call_next st).2).registry.request_count
        req.method req.url_path resp.status_code
      = st2.registry.request_count req.method req.url_path resp.status_code + 1 ∧
    ((monitor_requests req t0 t1 call_next st).2).registry.latency_obs
      = (t1 - t0) :: st2.registry.latency_obs := by
  unfold monitor_requests
  rw [h]
  simp [Registry.gaugeSet, Registry.observe, Registry.errorRateInc,
    Registry.requestCountInc, apply_ite]

/-- Witness for C2 at a concrete request, handler and state. -/
theorem normal_completion_records_witness :
    (cnOk (entryState initState)
        = (Outcome.ok { status_code := 200, body := () }, entryState initState)) ∧
    ((monitor_requests sampleReq 0 1 cnOk initState).1
        = Outcome.ok { status_code := 200, body := () } ∧
     ((monitor_requests sampleReq 0 1 cnOk initState).2).registry.request_count
        "GET" "/health" 200
       = (entryState initState).registry.request_count "GET" "/health" 200 + 1 ∧
     ((monitor_requests sampleReq 0 1 cnOk initState).2).registry.latency_obs
       = (1 - 0) :: (entryState initState).registry.latency_obs) :=
  ⟨rfl,
    normal_completion_records sampleReq 0 1 cnOk initState (entryState initState)
      { status_code := 200, body := () } rfl⟩

/-- Claim C3: when the handler raises, the middleware increments the error
counter cell of the path label by exactly one, increments the request counter
cell (method, path label, 500) by exactly one, appends exactly one latency
observation, and re-propagates the original exception unchanged. -/
theorem raised_failure_records {ε β : Type} (req : Request) (t0 t1 : ℚ)
    (call_next : AppState → Outcome ε β × AppState)
    (st st2 : AppState) (e : ε)
    (h : call_next (entryState st) = (Outcome.err e, st2)) :
    (monitor_requests req t0 t1 call_next st).1 = Outcome.err e ∧
    ((monitor_requests req t0 t1 call_next st).2).registry.error_rate req.url_path
      = st2.registry.error_rate req.url_path + 1 ∧
    ((monitor_requests req t0 t1 call_next st).2).registry.request_count
        req.method req.url_path 500
      = st2.registry.request_count req.method req.url_path 500 + 1 ∧
    ((monitor_requests req t0 t1 call_next st).2).registry.latency_obs
      = (t1 - t0) :: st2.registry.latency_obs := by
  unfold monitor_requests
  rw [h]
  simp [Registry.gaugeSet, Registry.observe, Registry.errorRateInc,
    Registry.requestCountInc]

/-- Witness for C3 at a concrete request, raising handler and state. -/
theorem raised_failure_records_witness :
    (cnErr (entryState initState)
        = (Outcome.err "boom", entryState initState)) ∧
    ((monitor_requests sampleReq 0 1 cnErr initState).1 = Outcome.err "boom" ∧
     ((monitor_requests sampleReq 0 1 cnErr initState).2).registry.error_rate "/health"
       = (entryState initState).registry.error_rate "/health" + 1 ∧
     ((monitor_requests sampleReq 0 1 cnErr initState).2).registry.request_count
        "GET" "/health" 500
       = (entryState initState).registry.request_count "GET" "/health" 500 + 1 ∧
     ((monitor_requests sampleReq 0 1 cnErr initState).2).registry.latency_obs
       = (1 - 0) :: (entryState initState).registry.latency_obs) :=
  ⟨rfl,
    raised_failure_records sampleReq 0 1 cnErr initState (entryState initState)
      "boom" rfl⟩

/-- Claim C4: the error counter cell of the path label grows by exactly one
precisely when the recorded status is at least 400 (an error response or a
raised failure, which records 500), every other error counter cell is
unchanged, and when the status is below 400 no error counter cell changes. -/
theorem error_counter_iff {ε β : Type} (req : Request) (t0 t1 : ℚ)
    (call_next : AppState → Outcome ε β × AppState)
    (st st2 : AppState) (out : Outcome ε β)
    (h : call_next (entryState st) = (out, st2)) :
    (400 ≤ finalStatus out →
      ((monitor_requests req t0 t1 call_next st).2).registry.error_rate req.url_path
        = st2.registry.error_rate req.url_path + 1 ∧
      ∀ p, p ≠ req.url_path →
        ((monitor_requests req t0 t1 call_next st).2).registry.error_rate p
          = st2.registry.error_rate p) ∧
    (finalStatus out < 400 →
      ∀ p, ((monitor_requests req t0 t1 call_next st).2).registry.error_rate p
        = st2.registry.error_rate p) := by
  unfold monitor_requests
  rw [h]
  cases out with
  | ok resp =>
      simp only [finalStatus]
      refine ⟨fun hs => ⟨?_, fun p hp => ?_⟩, fun hs p => ?_⟩
      · simp [Registry.gaugeSet, Registry.observe, Registry.errorRateInc,
          Registry.requestCountInc, hs]
      · simp [Registry.gaugeSet, Registry.observe, Registry.errorRateInc,
          Registry.requestCountInc, hs, hp]
      · have hs4 : ¬ 400 ≤ resp.status_code := by omega
        simp [Registry.gaugeSet, Registry.observe, Registry.errorRateInc,
          Registry.requestCountInc, hs4]
  | err e =>
      simp only [finalStatus]
      refine ⟨fun hs => ⟨?_, fun p hp => ?_⟩, fun hs p => ?_⟩
      · simp [Registry.gaugeSet, Registry.observe, Registry.errorRateInc,
          Registry.requestCountInc]
      · simp [Registry.gaugeSet, Registry.observe, Registry.errorRateInc,
          Registry.requestCountInc, hp]
      · exact absurd hs (by omega)

/-- Witness for C4 at a concrete request, handler and state. -/
theorem error_counter_iff_witness :
    (cnOk (entryState initState)
        = (Outcome.ok { status_code := 200, body := () }, entryState initState)) ∧
    ((400 ≤ finalStatus okResp200 →
      ((monitor_requests sampleReq 0 1 cnOk initState).2).registry.error_rate "/health"
        = (entryState initState).registry.error_rate "/health" + 1 ∧
      ∀ p, p ≠ "/health" →
        ((monitor_requests sampleReq 0 1 cnOk initState).2).registry.error_rate p
          = (entryState initState).registry.error_rate p) ∧
    (finalStatus okResp200 < 400 →
      ∀ p, ((monitor_requests sampleReq 0 1 cnOk initState).2).registry.error_rate p
        = (entryState initState).registry.error_rate p)) :=
  ⟨rfl,
    error_counter_iff sampleReq 0 1 cnOk initState (entryState initState)
      (Outcome.ok { status_code := 200, body := () }) rfl⟩

/-- Claim C7: each request increments exactly the request counter cell
(method, path label, final status) by one; every other request counter cell
is left unchanged by the middleware. -/
theorem request_counter_frame {ε β : Type} (req : Request) (t0 t1 : ℚ)
    (call_next : AppState → Outcome ε β × AppState)
    (st st2 : AppState) (out : Outcome ε β)
    (h : call_next (entryState st) = (out, st2)) :
    ((monitor_requests req t0 t1 call_next st).2).registry.request_count
        req.method req.url_path (finalStatus out)
      = st2.registry.request_count req.method req.url_path (finalStatus out) + 1 ∧
    ∀ m p s, ¬(m = req.method ∧ p = req.url_path ∧ s = finalStatus out) →
      ((monitor_requests req t0 t1 call_next st).2).registry.request_count m p s
        = st2.registry.request_count m p s := by
  unfold monitor_requests
  rw [h]
  cases out with
  | ok resp =>
      constructor
      · simp [Registry.gaugeSet, Registry.observe, Registry.errorRateInc,
          Registry.requestCountInc, finalStatus, apply_ite]
      · intro m p s hmps
        simp only [finalStatus] at hmps
        simp [Registry.gaugeSet, Registry.observe, Registry.errorRateInc,
          Registry.requestCountInc, apply_ite, hmps]
  | err e =>
      constructor
      · simp [Registry.gaugeSet, Registry.observe, Registry.errorRateInc,
          Registry.requestCountInc, finalStatus]
      · intro m p s hmps
        simp only [finalStatus] at hmps
        simp [Registry.gaugeSet, Registry.observe, Registry.errorRateInc,
          Registry.requestCountInc, hmps]

/-- Witness for C7 at a concrete request, handler and state. -/
theorem request_counter_frame_witness :
    (cnOk (entryState initState)
        = (Outcome.ok { status_code := 200, body := () }, entryState initState)) ∧
    (((monitor_requests sampleReq 0 1 cnOk initState).2).registry.request_count
        "GET" "/health" (finalStatus okResp200)
      = (entryState initState).registry.request_count "GET" "/health"
          (finalStatus okResp200) + 1 ∧
    ∀ m p s,
      ¬(m = "GET" ∧ p = "/health"
          ∧ s = finalStatus okResp200) →
      ((monitor_requests sampleReq 0 1 cnOk initState).2).registry.request_count m p s
        = (entryState initState).registry.request_count m p s) :=
  ⟨rfl,
    request_counter_frame sampleReq 0 1 cnOk initState (entryState initState)
      (Outcome.ok { status_code := 200, body := () }) rfl⟩

/-- Claim C8: whether the handler returns or raises, the middleware appends
exactly one latency observation per request, of value t1 - t0 (exit reading
minus the entry reading), and that value is nonnegative whenever the exit
reading is not earlier than the entry reading. -/
theorem latency_observed_once {ε β : Type} (req : Request) (t0 t1 : ℚ)
    (call_next : AppState → Outcome ε β × AppState)
    (st st2 : AppState) (out : Outcome ε β)
    (h : call_next (entryState st) = (out, st2))
    (ht : t0 ≤ t1) :
    ((monitor_requests req t0 t1 call_next st).2).registry.latency_obs
      = (t1 - t0) :: st2.registry.latency_obs ∧
    0 ≤ t1 - t0 := by
  refine ⟨?_, by linarith⟩
  unfold monitor_requests
  rw [h]
  cases out <;>
    simp [Registry.gaugeSet, Registry.observe, Registry.errorRateInc,
      Registry.requestCountInc, apply_ite]

/-- Witness for C8 at a concrete request, handler, state and timestamps. -/
theorem latency_observed_once_witness :
    (cnOk (entryState initState)
        = (Outcome.ok { status_code := 200, body := () }, entryState initState)) ∧
    ((0 : ℚ) ≤ 1) ∧
    (((monitor_requests sampleReq 0 1 cnOk initState).2).registry.latency_obs
      = ((1 : ℚ) - 0) :: (entryState initState).registry.latency_obs ∧
     (0 : ℚ) ≤ 1 - 0) :=
  ⟨rfl, by norm_num,
    latency_observed_once sampleReq 0 1 cnOk initState (entryState initState)
      (Outcome.ok { status_code := 200, body := () }) rfl (by norm_num)⟩

/-- Claim C5 is false of the source: the in-flight update of the middleware
is not performed through the atomic gauge increment and decrement of the
registry; lines 39-42 and 72-75 of src/main.py read-modify-write the
module-level global and then call gauge.set with its value. -/
theorem gauge_update_not_atomic_counterexample :
    ¬ (∀ e ∈ entryEffects ++ exitEffects, e.isAtomicRegistryOp = true) := by
  decide

/-- Claim C5 amended: the middleware maintains the in-flight count by a
read-then-write pair (a read-modify-write of the module-level global
followed by gauge.set of its value), never by an atomic registry increment
or decrement; such a read-then-write pair admits lost updates when
interleaved: two interleaved increments of a shared counter starting at 0
can leave it at 1, where the sequential schedule leaves it at 2. -/
theorem gauge_update_read_then_write :
    (∀ e ∈ entryEffects ++ exitEffects, e.isAtomicRegistryOp = false) ∧
    (toyRun [RmwStep.read0, RmwStep.read1, RmwStep.write0, RmwStep.write1]
        { glob := 0, reg0 := 0, reg1 := 0 }).glob = 1 ∧
    (toyRun [RmwStep.read0, RmwStep.write0, RmwStep.read1, RmwStep.write1]
        { glob := 0, reg0 := 0, reg1 := 0 }).glob = 2 := by
  decide

/-- Claim C6 is false of the source at a concrete request whose raw URL path
/simulate/extra differs from the template /simulate of the matched route:
the request counter cell keyed by the route template is not the cell the
middleware increments. -/
theorem route_label_counterexample :
    ¬ (((monitor_requests rawPathReq 0 1 cnOk initState).2).registry.request_count
        "GET" "/simulate" 200
      = initState.registry.request_count "GET" "/simulate" 200 + 1) := by
  decide

/-- Claim C6 amended: the route label attached to RequestCounter and
ErrorCounter is the raw request URL path (request.url.path), not the
normalized template of the matched route: the incremented request counter
cell is keyed by the url path, and every counter cell whose endpoint label
differs from the url path is unchanged, whatever the route template is. -/
theorem route_label_is_raw_path {ε β : Type} (req : Request) (t0 t1 : ℚ)
    (call_next : AppState → Outcome ε β × AppState)
    (st st2 : AppState) (out : Outcome ε β)
    (h : call_next (entryState st) = (out, st2)) :
    ((monitor_requests req t0 t1 call_next st).2).registry.request_count
        req.method req.url_path (finalStatus out)
      = st2.registry.request_count req.method req.url_path (finalStatus out) + 1 ∧
    (∀ p, p ≠ req.url_path → ∀ m s,
      ((monitor_requests req t0 t1 call_next st).2).registry.request_count m p s
        = st2.registry.request_count m p s) ∧
    (∀ p, p ≠ req.url_path →
      ((monitor_requests req t0 t1 call_next st).2).registry.error_rate p
        = st2.registry.error_rate p) := by
  unfold monitor_requests
  rw [h]
  cases out with
  | ok resp =>
      refine ⟨?_, fun p hp m s => ?_, fun p hp => ?_⟩
      · simp [Registry.gaugeSet, Registry.observe, Registry.errorRateInc,
          Registry.requestCountInc, finalStatus, apply_ite]
      · simp [Registry.gaugeSet, Registry.observe, Registry.errorRateInc,
          Registry.requestCountInc, apply_ite, hp]
      · simp [Registry.gaugeSet, Registry.observe, Registry.errorRateInc,
          Registry.requestCountInc, apply_ite, ite_apply, hp]
  | err e =>
      refine ⟨?_, fun p hp m s => ?_, fun p hp => ?_⟩
      · simp [Registry.gaugeSet, Registry.observe, Registry.errorRateInc,
          Registry.requestCountInc, finalStatus]
      · simp [Registry.gaugeSet, Registry.observe, Registry.errorRateInc,
          Registry.requestCountInc, hp]
      · simp [Registry.gaugeSet, Registry.observe, Registry.errorRateInc,
          Registry.requestCountInc, hp]

/-- Witness for the amended C6 at the concrete request whose raw URL path
differs from the matched route template. -/
theorem route_label_is_raw_path_witness :
    (cnOk (entryState initState)
        = (okResp200, entryState initState)) ∧
    (((monitor_requests rawPathReq 0 1 cnOk initState).2).registry.request_count
        "GET" "/simulate/extra" (finalStatus okResp200)
      = (entryState initState).registry.request_count "GET" "/simulate/extra"
          (finalStatus okResp200) + 1 ∧
    (∀ p, p ≠ "/simulate/extra" → ∀ m s,
      ((monitor_requests rawPathReq 0 1 cnOk initState).2).registry.request_count m p s
        = (entryState initState).registry.request_count m p s) ∧
    (∀ p, p ≠ "/simulate/extra" →
      ((monitor_requests rawPathReq 0 1 cnOk initState).2).registry.error_rate p
        = (entryState initState).registry.error_rate p)) :=
  ⟨rfl,
    route_label_is_raw_path rawPathReq 0 1 cnOk initState (entryState initState)
      okResp200 rfl⟩

/-- Claim C9: the response of the `/metrics` route carries the text
exposition content type, and once the registry state is the result of at
least one request having gone through the middleware, its body names each of
the four metrics. -/
theorem metrics_endpoint_contract {ε β : Type} (req : Request) (t0 t1 : ℚ)
    (call_next : AppState → Outcome ε β × AppState) (st0 st : AppState)
    (_h : st = (monitor_requests req t0 t1 call_next st0).2) :
    (metrics st).media_type = "text/plain; version=0.0.4; charset=utf-8" ∧
    strContains (metrics st).body "http_requests_total" ∧
    strContains (metrics st).body "http_errors_total" ∧
    strContains (metrics st).body "http_request_duration_seconds" ∧
    strContains (metrics st).body "active_connections" := by
  refine ⟨rfl, ?_, ?_, ?_, ?_⟩
  · exact ⟨"# TYPE ",
      " counter\n" ++ "# TYPE " ++ "http_errors_total" ++ " counter\n" ++
        "# TYPE " ++ "http_request_duration_seconds" ++ " histogram\n" ++
        "http_request_duration_seconds_count "
        ++ toString st.registry.latency_obs.length ++ "\n" ++
        "# TYPE " ++ "active_connections" ++ " gauge\n" ++
        "active_connections " ++ toString st.registry.active_gauge ++ "\n",
      by simp only [metrics, generate_latest, ← String.append_assoc]⟩
  · exact ⟨"# TYPE " ++ "http_requests_total" ++ " counter\n" ++ "# TYPE ",
      " counter\n" ++
        "# TYPE " ++ "http_request_duration_seconds" ++ " histogram\n" ++
        "http_request_duration_seconds_count "
        ++ toString st.registry.latency_obs.length ++ "\n" ++
        "# TYPE " ++ "active_connections" ++ " gauge\n" ++
        "active_connections " ++ toString st.registry.active_gauge ++ "\n",
      by simp only [metrics, generate_latest, ← String.append_assoc]⟩
  · exact ⟨"# TYPE " ++ "http_requests_total" ++ " counter\n" ++
        "# TYPE " ++ "http_errors_total" ++ " counter\n" ++ "# TYPE ",
      " histogram\n" ++
        "http_request_duration_seconds_count "
        ++ toString st.registry.latency_obs.length ++ "\n" ++
        "# TYPE " ++ "active_connections" ++ " gauge\n" ++
        "active_connections " ++ toString st.registry.active_gauge ++ "\n",
      by simp only [metrics, generate_latest, ← String.append_assoc]⟩
  · exact ⟨"# TYPE " ++ "http_requests_total" ++ " counter\n" ++
        "# TYPE " ++ "http_errors_total" ++ " counter\n" ++
        "# TYPE " ++ "http_request_duration_seconds" ++ " histogram\n" ++
        "http_request_duration_seconds_count "
        ++ toString st.registry.latency_obs.length ++ "\n" ++ "# TYPE ",
      " gauge\n" ++
        "active_connections " ++ toString st.registry.active_gauge ++ "\n",
      by simp only [metrics, generate_latest, ← String.append_assoc]⟩

/-- Witness for C9 at the registry state left by one concrete request. -/
theorem metrics_endpoint_contract_witness :
    ((monitor_requests sampleReq 0 1 cnOk initState).2
        = (monitor_requests sampleReq 0 1 cnOk initState).2) ∧
    ((metrics ((monitor_requests sampleReq 0 1 cnOk initState).2)).media_type
        = "text/plain; version=0.0.4; charset=utf-8" ∧
     strContains (metrics ((monitor_requests sampleReq 0 1 cnOk initState).2)).body
        "http_requests_total" ∧
     strContains (metrics ((monitor_requests sampleReq 0 1 cnOk initState).2)).body
        "http_errors_total" ∧
     strContains (metrics ((monitor_requests sampleReq 0 1 cnOk initState).2)).body
        "http_request_duration_seconds" ∧
     strContains (metrics ((monitor_requests sampleReq 0 1 cnOk initState).2)).body
        "active_connections") :=
  ⟨rfl,
    metrics_endpoint_contract sampleReq 0 1 cnOk initState
      ((monitor_requests sampleReq 0 1 cnOk initState).2) rfl⟩

/-- Claim C10: the active_connections value reported by a successful GET
/health response counts the request itself: the middleware increments the
in-flight global before delegating, so the handler reads baseline plus one,
which is at least one whenever the baseline is nonnegative. -/
theorem health_reports_including_self (t t0 t1 : ℚ) (st : AppState)
    (h : 0 ≤ st.active_connections) :
    (monitor_requests sampleReq t0 t1 (health_call_next t) st).1
      = healthResp t (st.active_connections + 1) ∧
    1 ≤ st.active_connections + 1 := by
  refine ⟨?_, by omega⟩
  simp [monitor_requests, health_call_next, health_check, entryState, healthResp]

/-- Witness for C10 at a concrete time and the initial state. -/
theorem health_reports_including_self_witness :
    ((0 : Int) ≤ initState.active_connections) ∧
    ((monitor_requests sampleReq 0 1 (health_call_next 2) initState).1
      = healthResp 2 (initState.active_connections + 1) ∧
    1 ≤ initState.active_connections + 1) :=
  ⟨by decide, health_reports_including_self 2 0 1 initState (by decide)⟩

end Observer
